import Mathlib

/-!
# Verification of the ClonEpub Backend Sidecar Supervisor

Shallow embedding of the lifecycle code of `src/electron/src/main.ts`
(environment provisioning, backend process launch/stop, readiness probing)
and of the renderer's transport bridge `callAPI` of the UI script
(`src/unnamed/part_001`), together with proofs and refutations of the
specification's claims about them.
-/

namespace ClonEpub

/-! ## Readiness prober (`waitForServer`, main.ts 149-187)

`waitForServer` polls `http://127.0.0.1:8765/health`.  Each iteration of
`checkServer` first checks the overall deadline (`Date.now() - startTime >=
timeout`); if the deadline has not elapsed it issues one HTTP GET which
ends in one of three ways: a response with some status code (only
`statusCode === 200` resolves `true`; any other status schedules a retry
after 500 ms), a request error (retry after 500 ms), or the 2000 ms
per-attempt timeout (`req.setTimeout(2000, ...)`, destroy and retry after
500 ms).  The first call of `checkServer` is scheduled 1000 ms after start.

The embedding abstracts real time into the elapsed-milliseconds counter
`t` and models the environment (the backend's behaviour) as a list of
attempt outcomes, consumed one per probe attempt.  Each outcome carries
the duration the attempt took; a per-attempt timeout always costs the full
2000 ms. -/

/-- Outcome of one probe attempt, as observed by `checkServer`:
a response with a status code after `d` ms, a connection error after
`d` ms, or the 2000 ms per-attempt timeout. -/
inductive AttemptResult where
  | response (statusCode : Nat) (d : Nat)
  | connError (d : Nat)
  | attemptTimeout
  deriving DecidableEq, Repr

/-- Milliseconds an attempt adds to the elapsed clock: its duration plus
the 500 ms retry interval (`setTimeout(checkServer, 500)`).  A per-attempt
timeout lasts the full 2000 ms budget. -/
def stepDelay : AttemptResult → Nat
  | .response _ d => d + 500
  | .connError d => d + 500
  | .attemptTimeout => 2000 + 500

/-- Whether the attempt is the one `checkServer` accepts: a response whose
status code is exactly 200 (`res.statusCode === 200`). -/
def isSuccess : AttemptResult → Bool
  | .response s _ => s == 200
  | _ => false

/-- The body of `waitForServer`'s polling loop (`checkServer`).  `t` is
the elapsed time at the moment the deadline check runs; `attempts` is the
remaining environment.  Returns `some true` on success, `some false` when
the overall deadline is observed to have elapsed, and `none` when the
modelled attempt list is exhausted before either happened. -/
def waitLoop (timeout : Nat) : Nat → List AttemptResult → Option Bool
  | t, attempts =>
    if timeout ≤ t then some false
    else
      match attempts with
      | [] => none
      | a :: rest =>
        match a with
        | .response s _ =>
          if s = 200 then some true
          else waitLoop timeout (t + stepDelay a) rest
        | .connError _ => waitLoop timeout (t + stepDelay a) rest
        | .attemptTimeout => waitLoop timeout (t + stepDelay a) rest

/-- `waitForServer(timeout)`: the first `checkServer` call runs 1000 ms
after start (`setTimeout(checkServer, 1000)`); default timeout 60000 ms. -/
def waitForServer (attempts : List AttemptResult) (timeout : Nat := 60000) :
    Option Bool :=
  waitLoop timeout 1000 attempts

/-- Elapsed time at the deadline check preceding attempt `n` (attempt
indices start at 0), starting from elapsed time `t`. -/
def elapsedAt (t : Nat) : List AttemptResult → Nat → Nat
  | _, 0 => t
  | [], _ + 1 => t
  | a :: rest, n + 1 => elapsedAt (t + stepDelay a) rest n

/-! ## Environment provisioner (main.ts 63-143, 377-384)

`isEnvironmentReady` tests `fs.existsSync(venvPath/bin/python)` — the
venv's python binary is the install marker.  `setupPythonEnvironment`
shells out to `uv sync`; on failure it shows an error box and closes the
setup window but performs no filesystem cleanup — in particular it never
removes a marker that the failed `uv sync` already created.  The app's
`ready` handler runs setup only when the marker is absent.

The filesystem is abstracted to the two facts the claims are about:
whether the marker (the venv python binary) exists and whether the
dependency installation actually ran to completion.  The external
`uv sync` run is a parameter: a function from filesystem state to
(new filesystem state, success flag). -/

/-- Abstract filesystem state: presence of the install marker (the venv's
python binary) and whether dependency installation completed. -/
structure FsState where
  markerExists : Bool
  depsInstalled : Bool
  deriving DecidableEq, Repr

/-- Behaviour of one external `uv sync` run: the filesystem it leaves
behind and whether it exited successfully. -/
def UvRun := FsState → FsState × Bool

/-- `isEnvironmentReady()`: the marker check. -/
def isEnvironmentReady (fs : FsState) : Bool :=
  fs.markerExists

/-- `setupPythonEnvironment()`: runs `uv sync` and returns its success;
the catch branch performs no filesystem mutation (no marker cleanup). -/
def setupPythonEnvironment (uv : UvRun) (fs : FsState) : FsState × Bool :=
  uv fs

/-- The provisioning phase of the `ready` handler (main.ts 377-384):
`if (!isEnvironmentReady()) { setupPythonEnvironment() }` — skipped
entirely when the marker exists. -/
def ensureEnvironment (uv : UvRun) (fs : FsState) : FsState × Bool :=
  if isEnvironmentReady fs then (fs, true)
  else setupPythonEnvironment uv fs

/-- A `uv sync` behaviour that fails partway through dependency
installation after the venv (and hence its python binary, the marker) has
already been created: `uv sync` builds the venv first and installs
dependencies into it afterwards, so an install error leaves the marker
behind.  The code has no cleanup that would remove it. -/
def uvFailsAfterVenv : UvRun :=
  fun _ => (⟨true, false⟩, false)

/-- A `uv sync` behaviour that either completes fully or leaves no
marker: the atomicity the specification asserts, available only if the
external installer provides it. -/
def UvAtomic (uv : UvRun) : Prop :=
  ∀ fs, ((uv fs).2 = true → (uv fs).1 = ⟨true, true⟩) ∧
    ((uv fs).2 = false → ((uv fs).1).markerExists = false)

/-! ## Process launcher (main.ts 189-244)

`startPythonBackend` spawns the child with no check that
`pythonProcess` is already non-null: the `spawn` result is assigned to the
module-level `pythonProcess` unconditionally, so a handle already stored
there is overwritten.  The `exit` listener (main.ts 222-225) sets
`pythonProcess = null`.  `stopPythonBackend` (main.ts 238-244) sends
`SIGTERM` and nulls the handle only when `pythonProcess` is non-null.

The embedding tracks the stored handle, the set of processes ever
spawned, the signals sent, and a fresh-pid counter. -/

/-- Supervisor-owned process state: the module-level `pythonProcess`
handle (a pid when non-null), every pid ever spawned, every pid that was
sent `SIGTERM`, and the next fresh pid. -/
structure ProcState where
  pythonProcess : Option Nat
  spawned : List Nat
  sigtermSent : List Nat
  nextPid : Nat
  deriving DecidableEq, Repr

/-- The spawn step of `startPythonBackend` (main.ts 199-207): spawns a
fresh child and stores its handle, overwriting whatever was stored.  No
guard inspects the existing handle first. -/
def spawnBackend (s : ProcState) : ProcState :=
  { s with
    pythonProcess := some s.nextPid
    spawned := s.nextPid :: s.spawned
    nextPid := s.nextPid + 1 }

/-- The `exit` listener (main.ts 222-225): observing the child's exit
clears the stored handle. -/
def onExit (s : ProcState) : ProcState :=
  { s with pythonProcess := none }

/-- `stopPythonBackend()` (main.ts 238-244): if a handle is stored, send
`SIGTERM` to it and clear the handle; otherwise do nothing. -/
def stopPythonBackend (s : ProcState) : ProcState :=
  match s.pythonProcess with
  | some pid =>
    { s with sigtermSent := pid :: s.sigtermSent, pythonProcess := none }
  | none => s

/-! ## Transport bridge (`callAPI`, UI script lines 150-191)

`callAPI(method, ...args)` branches on `isElectron`.  In Electron mode it
looks the method up in `API_ENDPOINTS`; an unknown method logs
`Unknown API method` to the console and returns `null` **without any
network call**.  A known method is dispatched with `fetch`; a transport
failure (fetch or `response.json()` rejecting) is caught, logged, and
surfaced as `null`.  Nothing in `callAPI` consults any readiness state:
the main process's `isBackendReady` flag only gates window creation
(main.ts 397, 420), not individual calls.

The embedding keeps JSON values abstract, models the transport as a
function from the request to a fetch outcome, and records whether the
call was dispatched to the transport at all. -/

/-- Abstract JSON value, rich enough for the shapes the claims mention. -/
inductive Json where
  | null
  | str (s : String)
  | num (n : Int)
  | bool (b : Bool)
  | arr (xs : List Json)
  | obj (fields : List (String × Json))

/-- Field lookup on a JSON object (`x.path` and friends); `none` on
non-objects and missing fields, like `undefined`. -/
def Json.getField : Json → String → Option Json
  | .obj fields, k => (fields.find? (fun p => p.1 == k)).map Prod.snd
  | _, _ => none

/-- One entry of `API_ENDPOINTS`: HTTP verb, path template (a function of
the positional args, since some paths embed `args[0]`), and the optional
`mapArgs` body builder for POST endpoints. -/
structure Endpoint where
  verb : String
  path : List Json → String
  mapArgs : Option (List Json → Json)

/-- Rendering of an argument into a path segment (template literals
`${args[0]}` stringify the value). -/
def argToPathSeg : Option Json → String
  | some (.str s) => s
  | some (.num n) => toString n
  | some (.bool b) => toString b
  | some .null => "null"
  | some (.arr _) => "array"
  | some (.obj _) => "object"
  | none => "undefined"

/-- The `API_ENDPOINTS` table, entry for entry (UI script lines 131-148). -/
def API_ENDPOINTS : String → Option Endpoint
  | "check_models" => some ⟨"GET", fun _ => "/api/check_models", none⟩
  | "get_all_dependencies" => some ⟨"GET", fun _ => "/api/dependencies", none⟩
  | "get_download_progress" =>
    some ⟨"GET", fun _ => "/api/download_progress", none⟩
  | "get_synthesis_progress" =>
    some ⟨"GET", fun _ => "/api/synthesis_progress", none⟩
  | "get_downloads_dir" => some ⟨"GET", fun _ => "/api/downloads_dir", none⟩
  | "get_selected_chapters" =>
    some ⟨"GET", fun _ => "/api/selected_chapters", none⟩
  | "start_model_download" =>
    some ⟨"POST", fun _ => "/api/start_download", none⟩
  | "load_epub" =>
    some ⟨"POST", fun _ => "/api/load_epub",
      some fun args => .obj [("file_path", args.getD 0 .null)]⟩
  | "get_chapter_content" =>
    some ⟨"GET", fun args => "/api/chapter/" ++ argToPathSeg (args.get? 0),
      none⟩
  | "update_chapter_content" =>
    some ⟨"POST",
      fun args => "/api/chapter/" ++ argToPathSeg (args.get? 0) ++ "/update",
      some fun args => .obj [("text", args.getD 1 .null)]⟩
  | "toggle_chapter_selection" =>
    some ⟨"POST",
      fun args => "/api/chapter/" ++ argToPathSeg (args.get? 0) ++ "/toggle",
      none⟩
  | "preview_voice" =>
    some ⟨"POST", fun _ => "/api/preview_voice",
      some fun args => .obj [("text", args.getD 0 .null),
        ("ref_audio", args.getD 1 .null),
        ("voice_preset", args.getD 2 .null)]⟩
  | "start_synthesis" =>
    some ⟨"POST", fun _ => "/api/start_synthesis",
      some fun args => .obj [("output_folder", args.getD 0 .null),
        ("ref_audio", args.getD 1 .null),
        ("voice_preset", args.getD 2 .null)]⟩
  | "stop_synthesis" => some ⟨"POST", fun _ => "/api/stop_synthesis", none⟩
  | _ => none

/-- The HTTP request `callAPI` builds for a known endpoint: verb, full
URL, and body (`mapArgs(args)` when present, else the literal empty
object for POST, no body for GET). -/
structure Request where
  verb : String
  url : String
  body : Option Json

/-- Outcome of `fetch` + `response.json()`: a parsed JSON body (fetch
resolves on every HTTP status, error payloads included), or a
transport-level failure (network error / unreachable backend), which the
`catch` block sees. -/
inductive FetchOutcome where
  | body (j : Json)
  | transportError

/-- The loopback transport: what one `fetch` of a request returns. -/
def Transport := Request → FetchOutcome

/-- Result of a `callAPI` invocation: the value returned to the caller
(`none` models JS `null`) and whether the call reached the transport. -/
structure CallResult where
  value : Option Json
  dispatched : Bool

def requestOf (ep : Endpoint) (args : List Json) : Request :=
  { verb := ep.verb
    url := "http://127.0.0.1:8765" ++ ep.path args
    body :=
      if ep.verb = "POST" then
        some ((ep.mapArgs.map (fun f => f args)).getD (.obj []))
      else none }

/-- `callAPI` in Electron (HTTP) mode, lines 156-178 of the UI script:
unknown methods log and return `null` undispatched; known methods are
fetched unconditionally — no readiness check exists — and a caught
transport error also returns `null`. -/
def callAPI (transport : Transport) (method : String) (args : List Json) :
    CallResult :=
  match API_ENDPOINTS method with
  | none => { value := none, dispatched := false }
  | some ep =>
    match transport (requestOf ep args) with
    | .body j => { value := some j, dispatched := true }
    | .transportError => { value := none, dispatched := true }

/-- `callAPI` in PyWebView (direct in-process) mode, lines 181-190: the
backend's method is invoked directly; any thrown error (including the
`TypeError` of an unmapped method name) is caught and surfaced as `null`.
The direct backend is a function from method and args to an outcome. -/
def callAPIDirect (api : String → List Json → FetchOutcome)
    (method : String) (args : List Json) : CallResult :=
  match api method args with
  | .body j => { value := some j, dispatched := true }
  | .transportError => { value := none, dispatched := true }

/-- A transport standing for an unreachable backend (crashed or not yet
started): every fetch fails at the transport level. -/
def deadTransport : Transport :=
  fun _ => .transportError

/-! ### `get_downloads_dir` shapes under the two transports

`checkModels` (UI script lines 570-579) documents the two transports'
return shapes for `get_downloads_dir` in its own source comment: "Handle
both PyWebView (returns string) and HTTP (returns an object with a path
field)", and normalises with `typeof r === 'string' ? r : r?.path`. -/

/-- The shape the HTTP transport returns for `get_downloads_dir`, per the
source comment in `checkModels`: an object with a `path` field. -/
def httpDownloadsDirResult (dir : String) : Json :=
  .obj [("path", .str dir)]

/-- The shape the direct PyWebView call returns for `get_downloads_dir`,
per the same source comment: a bare string. -/
def pywebviewDownloadsDirResult (dir : String) : Json :=
  .str dir

/-- The shape the specification asserts: both transports present an
identical contract, so `get_downloads_dir` would return the same JSON
shape under both.  (Modelled from the spec for comparison with the
source-derived shapes above.) -/
def specIdenticalContract : Prop :=
  ∀ dir : String, httpDownloadsDirResult dir = pywebviewDownloadsDirResult dir

/-- The normalisation `checkModels` applies to the `get_downloads_dir`
result: `typeof r === 'string' ? r : r?.path` (lines 573-574),
keeping only a string result. -/
def normalizeDownloadsDir : Option Json → Option String
  | some (.str s) => some s
  | some j =>
    match j.getField "path" with
    | some (.str s) => some s
    | _ => none
  | none => none

/-- A `uv sync` behaviour that fails without leaving the marker behind —
an atomic installer, used to witness the conditional atomicity theorem. -/
def uvAlwaysFailsClean : UvRun :=
  fun _ => (⟨false, false⟩, false)

/-- Supervisor process state at application start: no handle stored,
nothing spawned, nothing signalled. -/
def procInit : ProcState :=
  ⟨none, [], [], 0⟩

/-! ## Helper lemmas about the prober loop -/

/-- When the overall deadline has elapsed at the check, the loop reports
failure regardless of the remaining attempts. -/
theorem waitLoop_deadline (timeout t : Nat) (attempts : List AttemptResult)
    (h : timeout ≤ t) : waitLoop timeout t attempts = some false := by
  cases attempts <;> simp [waitLoop, h]

/-- A non-success attempt made before the deadline schedules a retry:
the loop's value is that of the continuation 500 ms after the attempt
ends. -/
theorem waitLoop_retry_step (timeout t : Nat) (a : AttemptResult)
    (rest : List AttemptResult) (ht : t < timeout)
    (ha : isSuccess a = false) :
    waitLoop timeout t (a :: rest) = waitLoop timeout (t + stepDelay a) rest := by
  cases a with
  | response s d =>
    have hs : s ≠ 200 := by
      intro hs; subst hs; simp [isSuccess] at ha
    simp [waitLoop, Nat.not_le.mpr ht, hs]
  | connError d => simp [waitLoop, Nat.not_le.mpr ht]
  | attemptTimeout => simp [waitLoop, Nat.not_le.mpr ht]

/-- A status-200 response before the deadline resolves the wait with
success. -/
theorem waitLoop_success_step (timeout t d : Nat)
    (rest : List AttemptResult) (ht : t < timeout) :
    waitLoop timeout t (.response 200 d :: rest) = some true := by
  simp [waitLoop, Nat.not_le.mpr ht]

/-- Shifting the failure-characterisation over one non-success attempt:
the witness index moves by one, the elapsed clock by the attempt's
delay. -/
theorem exists_deadline_shift (timeout t : Nat) (a : AttemptResult)
    (rest : List AttemptResult) (ht : t < timeout)
    (ha : isSuccess a = false) :
    (∃ n, n ≤ rest.length ∧
        timeout ≤ elapsedAt (t + stepDelay a) rest n ∧
        ∀ k, k < n → elapsedAt (t + stepDelay a) rest k < timeout ∧
          isSuccess (rest.getD k .attemptTimeout) = false) ↔
    (∃ n, n ≤ (a :: rest).length ∧
        timeout ≤ elapsedAt t (a :: rest) n ∧
        ∀ k, k < n → elapsedAt t (a :: rest) k < timeout ∧
          isSuccess ((a :: rest).getD k .attemptTimeout) = false) := by
  constructor
  · rintro ⟨n, hn, hd, hall⟩
    refine ⟨n + 1, Nat.succ_le_succ hn, hd, ?_⟩
    intro k hk
    cases k with
    | zero => exact ⟨ht, ha⟩
    | succ m => exact hall m (Nat.lt_of_succ_lt_succ hk)
  · rintro ⟨n, hn, hd, hall⟩
    cases n with
    | zero => exact absurd hd (Nat.not_le.mpr (by simpa [elapsedAt] using ht))
    | succ m =>
      exact ⟨m, Nat.le_of_succ_le_succ hn, hd,
        fun k hk => hall (k + 1) (Nat.succ_lt_succ hk)⟩

/-- Characterisation of the prober reporting failure: the loop returns
`some false` exactly when some deadline check finds the overall timeout
elapsed while every earlier check was within the deadline and every
earlier attempt was a non-success. -/
theorem waitLoop_eq_false_iff (timeout : Nat) (attempts : List AttemptResult) :
    ∀ t : Nat,
      waitLoop timeout t attempts = some false ↔
        ∃ n, n ≤ attempts.length ∧ timeout ≤ elapsedAt t attempts n ∧
          ∀ k, k < n → elapsedAt t attempts k < timeout ∧
            isSuccess (attempts.getD k .attemptTimeout) = false := by
  induction attempts with
  | nil =>
    intro t
    constructor
    · intro h
      by_cases hle : timeout ≤ t
      · exact ⟨0, Nat.le_refl 0, by simpa [elapsedAt] using hle,
          fun k hk => absurd hk (Nat.not_lt_zero k)⟩
      · simp [waitLoop, hle] at h
    · rintro ⟨n, hn, hd, -⟩
      have hn0 : n = 0 := Nat.le_zero.mp hn
      subst hn0
      exact waitLoop_deadline timeout t [] (by simpa [elapsedAt] using hd)
  | cons a rest ih =>
    intro t
    by_cases hle : timeout ≤ t
    · constructor
      · intro _
        exact ⟨0, Nat.zero_le _, by simpa [elapsedAt] using hle,
          fun k hk => absurd hk (Nat.not_lt_zero k)⟩
      · intro _
        exact waitLoop_deadline timeout t (a :: rest) hle
    · have ht : t < timeout := Nat.lt_of_not_le hle
      cases a with
      | response s d =>
        by_cases hs : s = 200
        · subst hs
          constructor
          · intro h
            rw [waitLoop_success_step timeout t d rest ht] at h
            exact absurd h (by simp)
          · rintro ⟨n, hn, hd, hall⟩
            cases n with
            | zero =>
              exact absurd hd (Nat.not_le.mpr (by simpa [elapsedAt] using ht))
            | succ m =>
              have h0 := hall 0 (Nat.succ_pos m)
              simp [isSuccess, List.getD] at h0
        · have ha : isSuccess (.response s d) = false := by
            simp [isSuccess, hs]
          rw [waitLoop_retry_step timeout t _ rest ht ha, ih (t + stepDelay _)]
          exact exists_deadline_shift timeout t _ rest ht ha
      | connError d =>
        have ha : isSuccess (.connError d) = false := rfl
        rw [waitLoop_retry_step timeout t _ rest ht ha, ih (t + stepDelay _)]
        exact exists_deadline_shift timeout t _ rest ht ha
      | attemptTimeout =>
        have ha : isSuccess .attemptTimeout = false := rfl
        rw [waitLoop_retry_step timeout t _ rest ht ha, ih (t + stepDelay _)]
        exact exists_deadline_shift timeout t _ rest ht ha

/-! ## Claim theorems -/

/-- Claim C1: in `waitForServer`'s polling loop, a connection error or a
per-attempt timeout occurring before the overall deadline makes the loop
retry after the fixed 500 ms interval (the loop's value is that of the
continuation, never a direct failure), and the loop reports failure
exactly when a deadline check finds the overall timeout elapsed with
every earlier check in budget and every earlier attempt a non-success. -/
theorem prober_retries_and_fails_only_at_deadline
    (timeout t d : Nat) (rest attempts : List AttemptResult)
    (h : t < timeout) :
    (waitLoop timeout t (.connError d :: rest)
        = waitLoop timeout (t + (d + 500)) rest ∧
      waitLoop timeout t (.attemptTimeout :: rest)
        = waitLoop timeout (t + 2500) rest) ∧
    (waitLoop timeout t attempts = some false ↔
      ∃ n, n ≤ attempts.length ∧ timeout ≤ elapsedAt t attempts n ∧
        ∀ k, k < n → elapsedAt t attempts k < timeout ∧
          isSuccess (attempts.getD k .attemptTimeout) = false) := by
  refine ⟨⟨?_, ?_⟩, waitLoop_eq_false_iff timeout attempts t⟩
  · exact waitLoop_retry_step timeout t _ rest h rfl
  · exact waitLoop_retry_step timeout t _ rest h rfl

/-- Witness for C1 at the concrete inputs timeout 60000, elapsed 1000. -/
theorem prober_retries_and_fails_only_at_deadline_witness :
    (1000 : Nat) < 60000 ∧
    ((waitLoop 60000 1000 [AttemptResult.connError 0]
        = waitLoop 60000 (1000 + (0 + 500)) [] ∧
      waitLoop 60000 1000 [AttemptResult.attemptTimeout]
        = waitLoop 60000 (1000 + 2500) []) ∧
    (waitLoop 60000 1000 [] = some false ↔
      ∃ n, n ≤ List.length ([] : List AttemptResult) ∧
        60000 ≤ elapsedAt 1000 [] n ∧
        ∀ k, k < n → elapsedAt 1000 [] k < 60000 ∧
          isSuccess (List.getD [] k .attemptTimeout) = false)) :=
  ⟨by decide,
    prober_retries_and_fails_only_at_deadline 60000 1000 0 [] [] (by decide)⟩

/-- Counterexample to claim C9: a 204 response — squarely in the 2xx
range — does not resolve the wait with success; the loop treats it as
not-ready and retries (exhausting the modelled attempt list), while a 200
response resolves success immediately. -/
theorem probe_2xx_not_success_cex :
    waitLoop 60000 1000 [AttemptResult.response 204 0] = none ∧
    waitLoop 60000 1000 [AttemptResult.response 200 0] = some true := by
  decide

/-- Claim C9 as amended: a probe attempt is treated as success exactly
when its status code is 200 (`res.statusCode === 200`); any other status
code, other 2xx codes included, is treated as not-ready and the loop
retries after the fixed interval. -/
theorem probe_success_iff_exact_200 (timeout t s d : Nat)
    (rest : List AttemptResult) (ht : t < timeout) :
    (s = 200 → waitLoop timeout t (.response s d :: rest) = some true) ∧
    (s ≠ 200 → waitLoop timeout t (.response s d :: rest)
        = waitLoop timeout (t + (d + 500)) rest) := by
  constructor
  · intro hs
    subst hs
    exact waitLoop_success_step timeout t d rest ht
  · intro hs
    exact waitLoop_retry_step timeout t _ rest ht (by simp [isSuccess, hs])

/-- Witness for the amended C9 at status code 204. -/
theorem probe_success_iff_exact_200_witness :
    (1000 : Nat) < 60000 ∧
    (((204 : Nat) = 200 →
        waitLoop 60000 1000 [AttemptResult.response 204 0] = some true) ∧
     ((204 : Nat) ≠ 200 →
        waitLoop 60000 1000 [AttemptResult.response 204 0]
          = waitLoop 60000 (1000 + (0 + 500)) [])) :=
  ⟨by decide, probe_success_iff_exact_200 60000 1000 204 0 [] (by decide)⟩

/-- Counterexample to claim C2: with the backend unavailable (a crashed
or never-started backend, ReadinessState not Healthy), a `callAPI` call
on a table method is still dispatched to the transport, and the caught
transport error is surfaced as the untyped `null` — not a typed
"not ready" rejection and not a fast-fail before the transport. -/
theorem invoke_unhealthy_dispatched_cex :
    (callAPI deadTransport "check_models" []).dispatched = true ∧
    (callAPI deadTransport "check_models" []).value = none :=
  ⟨rfl, rfl⟩

/-- Claim C2 as amended: `callAPI` performs no readiness gating at all —
for every method of the table, a call made while the backend is
unavailable is dispatched to the transport and its transport error is
caught and returned as `null` (the same value as any other failure),
never as a typed "not ready" error; the main process's readiness flag
gates only window creation. -/
theorem invoke_not_gated_on_readiness (method : String) (ep : Endpoint)
    (args : List Json) (h : API_ENDPOINTS method = some ep) :
    (callAPI deadTransport method args).dispatched = true ∧
    (callAPI deadTransport method args).value = none := by
  simp [callAPI, h, deadTransport]

/-- Witness for the amended C2 at the `stop_synthesis` method. -/
theorem invoke_not_gated_on_readiness_witness :
    (callAPI deadTransport "stop_synthesis" []).dispatched = true ∧
    (callAPI deadTransport "stop_synthesis" []).value = none :=
  invoke_not_gated_on_readiness "stop_synthesis"
    ⟨"POST", fun _ => "/api/stop_synthesis", none⟩ [] rfl

/-- Counterexample to claim C5: an unknown method name produces exactly
the same caller-visible result value (`null`) as a transport-level
failure on a known method, so the two are not distinguishable by the
result — even when the backend is healthy. -/
theorem unknown_method_indistinct_cex :
    (callAPI (fun _ => FetchOutcome.body (.obj [("status", .str "ok")]))
        "no_such_method" []).value
      = (callAPI deadTransport "check_models" []).value ∧
    (callAPI (fun _ => FetchOutcome.body (.obj [("status", .str "ok")]))
        "no_such_method" []).value = none :=
  ⟨rfl, rfl⟩

/-- Claim C5 as amended: an unknown method name is rejected without any
dispatch to the transport, but the rejection is surfaced as `null` — the
same value a transport-level failure produces — so an unmapped method and
a runtime transport failure are distinguishable only by the absence of a
dispatched request (and a console log), not by the returned result. -/
theorem unknown_method_undispatched_null (transport : Transport)
    (method : String) (args : List Json) (h : API_ENDPOINTS method = none) :
    (callAPI transport method args).dispatched = false ∧
    (callAPI transport method args).value = none := by
  simp [callAPI, h]

/-- Witness for the amended C5 at a method name absent from the table. -/
theorem unknown_method_undispatched_null_witness :
    (callAPI deadTransport "open_file_dialog" []).dispatched = false ∧
    (callAPI deadTransport "open_file_dialog" []).value = none :=
  unknown_method_undispatched_null deadTransport "open_file_dialog" [] rfl

/-- Counterexample to claim C6: the two transports do not present the
same success shape for `get_downloads_dir` — the loopback HTTP transport
returns an object with a `path` field while the direct PyWebView call
returns a bare string (as the source of `checkModels` itself records), so
the contract asserted identical by the spec differs between them. -/
theorem transport_shapes_differ_cex :
    httpDownloadsDirResult "/Users/demo/Downloads"
      ≠ pywebviewDownloadsDirResult "/Users/demo/Downloads" ∧
    ¬ specIdenticalContract := by
  constructor
  · intro h
    exact Json.noConfusion h
  · intro h
    exact Json.noConfusion (h "/Users/demo/Downloads")

/-- Claim C6 as amended: the two transports return different shapes for
`get_downloads_dir` (object-with-path versus bare string), and equality
of the caller-observable value is restored only by the normalisation
`checkModels` applies to the result. -/
theorem downloads_dir_normalised_agree (dir : String) :
    httpDownloadsDirResult dir ≠ pywebviewDownloadsDirResult dir ∧
    normalizeDownloadsDir (some (httpDownloadsDirResult dir)) = some dir ∧
    normalizeDownloadsDir (some (pywebviewDownloadsDirResult dir)) = some dir :=
  ⟨fun h => Json.noConfusion h, rfl, rfl⟩

/-- Counterexample to claim C3: with an installer run that fails partway
through dependency installation after the venv (and hence the marker, the
venv's python binary) has been created — behaviour the code neither
prevents nor cleans up, having no removal logic in its catch branch — the
failed provisioning run leaves the marker present with dependencies not
installed, and the next provisioning call skips setup entirely instead of
redoing it. -/
theorem partial_failure_leaves_marker_cex :
    (setupPythonEnvironment uvFailsAfterVenv ⟨false, false⟩).2 = false ∧
    ((setupPythonEnvironment uvFailsAfterVenv ⟨false, false⟩).1).markerExists
      = true ∧
    ((setupPythonEnvironment uvFailsAfterVenv ⟨false, false⟩).1).depsInstalled
      = false ∧
    ensureEnvironment uvFailsAfterVenv
        (setupPythonEnvironment uvFailsAfterVenv ⟨false, false⟩).1
      = ((setupPythonEnvironment uvFailsAfterVenv ⟨false, false⟩).1, true) :=
  ⟨rfl, rfl, rfl, rfl⟩

/-- Claim C3 as amended: the marker-absent-after-failure property holds
only conditionally on the external installer being atomic (succeeding
fully or leaving no marker); under that assumption a failed provisioning
run leaves the marker absent and the next call performs the full
provisioning step rather than skipping it.  The code itself contributes
no atomicity: its failure branch performs no marker cleanup. -/
theorem marker_absent_after_failure_if_uv_atomic (uv : UvRun) (fs : FsState)
    (hatomic : UvAtomic uv)
    (hfail : (ensureEnvironment uv fs).2 = false) :
    ((ensureEnvironment uv fs).1).markerExists = false ∧
    ensureEnvironment uv (ensureEnvironment uv fs).1
      = setupPythonEnvironment uv (ensureEnvironment uv fs).1 := by
  by_cases hm : isEnvironmentReady fs = true
  · rw [ensureEnvironment, if_pos hm] at hfail
    exact absurd hfail (by simp)
  · have hm' : isEnvironmentReady fs = false := by
      cases h : isEnvironmentReady fs
      · rfl
      · exact absurd h hm
    have he : ensureEnvironment uv fs = uv fs := by
      simp [ensureEnvironment, hm', setupPythonEnvironment]
    rw [he] at hfail ⊢
    have hmark := (hatomic fs).2 hfail
    refine ⟨hmark, ?_⟩
    simp [ensureEnvironment, isEnvironmentReady, hmark]

/-- Witness for the amended C3 with a clean-failing installer. -/
theorem marker_absent_after_failure_witness :
    ((ensureEnvironment uvAlwaysFailsClean ⟨false, false⟩).1).markerExists
      = false ∧
    ensureEnvironment uvAlwaysFailsClean
        (ensureEnvironment uvAlwaysFailsClean ⟨false, false⟩).1
      = setupPythonEnvironment uvAlwaysFailsClean
          (ensureEnvironment uvAlwaysFailsClean ⟨false, false⟩).1 :=
  marker_absent_after_failure_if_uv_atomic uvAlwaysFailsClean ⟨false, false⟩
    (fun _ => ⟨fun h => Bool.noConfusion h, fun _ => rfl⟩) rfl

/-- Claim C4: when the install marker already exists, the provisioning
phase of the ready handler is skipped entirely — the on-disk environment
is returned unchanged and reported ready, for any installer behaviour and
on repeated invocations. -/
theorem ensure_environment_idempotent (uv uv' : UvRun) (fs : FsState)
    (h : isEnvironmentReady fs = true) :
    ensureEnvironment uv fs = (fs, true) ∧
    ensureEnvironment uv' (ensureEnvironment uv fs).1 = (fs, true) := by
  have h1 : ensureEnvironment uv fs = (fs, true) := by
    simp [ensureEnvironment, h]
  refine ⟨h1, ?_⟩
  rw [h1]
  simp [ensureEnvironment, h]

/-- Witness for C4 on a fully provisioned filesystem. -/
theorem ensure_environment_idempotent_witness :
    isEnvironmentReady ⟨true, true⟩ = true ∧
    (ensureEnvironment uvFailsAfterVenv ⟨true, true⟩ = (⟨true, true⟩, true) ∧
      ensureEnvironment uvAlwaysFailsClean
          (ensureEnvironment uvFailsAfterVenv ⟨true, true⟩).1
        = (⟨true, true⟩, true)) :=
  ⟨rfl, ensure_environment_idempotent uvFailsAfterVenv uvAlwaysFailsClean
    ⟨true, true⟩ rfl⟩

/-- Counterexample to claim C7: starting the backend twice is not
rejected — the second call spawns a second child process (two pids ever
spawned), silently overwrites the stored handle with the new pid, and
the first child is neither tracked nor signalled. -/
theorem second_start_spawns_again_cex :
    (spawnBackend procInit).pythonProcess = some 0 ∧
    (spawnBackend (spawnBackend procInit)).spawned = [1, 0] ∧
    (spawnBackend (spawnBackend procInit)).pythonProcess = some 1 ∧
    (spawnBackend (spawnBackend procInit)).sigtermSent = [] := by
  decide

/-- Claim C7 as amended: `startPythonBackend` has no single-instance
guard — called while a backend handle is live, it spawns a fresh child
and overwrites the stored handle, sending no signal to and keeping no
reference to the previous child; at-most-one-live-process holds only
because the ready handler invokes it once per launch. -/
theorem start_overwrites_live_handle (s : ProcState) (pid : Nat)
    (h : s.pythonProcess = some pid) :
    (spawnBackend s).pythonProcess = some s.nextPid ∧
    (spawnBackend s).spawned = s.nextPid :: s.spawned ∧
    (spawnBackend s).sigtermSent = s.sigtermSent :=
  ⟨rfl, rfl, rfl⟩

/-- Witness for the amended C7: a second start over a live handle. -/
theorem start_overwrites_live_handle_witness :
    (spawnBackend (spawnBackend procInit)).pythonProcess
        = some (spawnBackend procInit).nextPid ∧
    (spawnBackend (spawnBackend procInit)).spawned
        = (spawnBackend procInit).nextPid :: (spawnBackend procInit).spawned ∧
    (spawnBackend (spawnBackend procInit)).sigtermSent
        = (spawnBackend procInit).sigtermSent :=
  start_overwrites_live_handle (spawnBackend procInit) 0 rfl

/-- Claim C8: `stopPythonBackend` is idempotent — a second consecutive
stop is a no-op (the state is unchanged) and in particular sends no
duplicate termination signal; for every state stop also never faults, it
is total. -/
theorem stop_backend_idempotent (s : ProcState) :
    stopPythonBackend (stopPythonBackend s) = stopPythonBackend s ∧
    (stopPythonBackend (stopPythonBackend s)).sigtermSent
      = (stopPythonBackend s).sigtermSent := by
  have h : stopPythonBackend (stopPythonBackend s) = stopPythonBackend s := by
    cases hp : s.pythonProcess <;> simp [stopPythonBackend, hp]
  exact ⟨h, by rw [h]⟩

/-- Claim C10: once the child's exit event has been observed, the stored
handle is cleared to null, and a subsequent `stopPythonBackend` is a
no-op that sends no termination signal at all. -/
theorem exit_clears_handle_and_stop_signals_nothing (s : ProcState) :
    (onExit s).pythonProcess = none ∧
    stopPythonBackend (onExit s) = onExit s ∧
    (stopPythonBackend (onExit s)).sigtermSent = s.sigtermSent := by
  refine ⟨rfl, ?_, ?_⟩ <;> simp [stopPythonBackend, onExit]

end ClonEpub
